import Mathlib

/-!
# Verification of the Remediation Orchestration Engine

Shallow embedding of `remediation-system/scripts/remediation_engine.py`
(class `RemediationEngine`).  External effects (subprocess calls, the
filesystem, systemd) are abstracted into an `Env` oracle recording the
outcome each call would produce; every piece of control flow of the
source is kept.  Machine floats appear only in the canary success-rate
computation `successful / total * 100`, which is modelled over `ℚ`
(exact for the integer inputs the engine produces).

Mutation of the engine instance fields (`self.remediated_nodes`,
`self.failed_nodes`, `self.remediation_log`) is modelled by returning
explicit deltas from each call, concatenated by the callers in source
order.
-/

/-- One entry of the `detections` array of the detection report:
the `type` and `node` keys, and the kind-specific keys
`file` / `service` / `package` / `user` read by `remediate_node`. -/
structure Drift where
  dtype : String
  node : String
  file : String := ""
  service : String := ""
  package : String := ""
  user : String := ""
  deriving Repr, DecidableEq

/-- The configuration options of `config/remediation_config.yaml` that
`RemediationEngine` reads. -/
structure Config where
  enabled : Bool
  canaryEnabled : Bool
  canaryPercentage : Nat
  successThreshold : Nat
  preValidation : Bool
  postValidation : Bool
  backupBefore : Bool
  autoRollback : Bool
  preserveAdminUsers : List String
  deriving Repr, DecidableEq

/-- Outcomes of the external commands the engine shells out to.
Each field answers "what would this subprocess / filesystem call
return".  `validate` is `none` when `validate_node` would hit an
exception, otherwise `some passed`. -/
structure Env where
  backupOk : String → Bool
  validate : String → String → Option Bool
  backupFileExists : String → String → Bool
  cpOk : String → String → Bool
  ansibleOk : String → Bool
  serviceStatus : String → String → String
  serviceCtlOk : String → String → Bool
  serviceStatusAfter : String → String → String
  pkgCmdOk : String → Nat → String → Bool
  userExists : String → Bool
  userdelOk : String → Bool
  useraddOk : String → Bool
  backupFiles : String → Option (List String)
  copyOk : String → String → Bool

/-- An entry of `self.remediation_log` as written by `log_event`
(timestamps dropped, they carry no control flow). -/
structure LogEvent where
  etype : String
  node : String
  status : String
  deriving Repr, DecidableEq

/-- Mutating external actions the engine performs, recorded so that
theorems can state that an action was or was not invoked. -/
inductive EngineAction where
  | runHandler (dtype target : String)
  | userdel (u : String)
  | useradd (u : String)
  | restoreFile (path : String)
  deriving Repr, DecidableEq

/-- The `managed_dirs` list of `remediate_file_changes`. -/
def managed_dirs : List String :=
  ["/var/www", "/etc/nginx", "/etc/apache2", "/etc/httpd", "/etc/ansible-managed"]

/-- Embeds `RemediationEngine.remediate_file_changes` (lines 215-253): skip
unmanaged paths, restore from the per-node backup when one exists,
else fall back to an `ansible-playbook` run.  `Python str.startswith`
is modelled as character-list prefix. -/
def remediate_file_changes (env : Env) (node fpath : String) :
    Bool × List LogEvent × List EngineAction :=
  if (managed_dirs.any fun dir => dir.data.isPrefixOf fpath.data) = false then
    (false, [⟨"skip_remediation", node, "warning"⟩], [])
  else if env.backupFileExists node fpath then
    if env.cpOk node fpath then
      (true, [⟨"file_restored", node, "info"⟩], [EngineAction.restoreFile fpath])
    else
      (false, [⟨"file_remediation_error", node, "error"⟩], [EngineAction.restoreFile fpath])
  else if env.ansibleOk node then
    (true, [⟨"file_remediated", node, "info"⟩], [])
  else
    (false, [⟨"file_remediation_failed", node, "error"⟩], [])

/-- Embeds `RemediationEngine.remediate_service_status` (lines 255-300):
no-op success if the status already matches, else issue
start+enable / stop+disable (an exception there is caught and yields
failure) and re-query once. -/
def remediate_service_status (env : Env) (node service desired : String) :
    Bool × List LogEvent × List EngineAction :=
  if env.serviceStatus node service = desired then
    (true, [⟨"service_already_ok", node, "info"⟩], [])
  else if env.serviceCtlOk node service = false then
    (false, [⟨"service_remediation_error", node, "error"⟩], [])
  else if env.serviceStatusAfter node service = desired then
    (true, [⟨"service_remediated", node, "info"⟩], [])
  else
    (false, [⟨"service_remediation_failed", node, "error"⟩], [])

/-- Embeds `RemediationEngine.remediate_unauthorized_package` (lines 302-340):
try apt, yum, dnf in order and accept the first front-end that reports
success. -/
def remediate_unauthorized_package (env : Env) (node pkg act : String) :
    Bool × List LogEvent × List EngineAction :=
  if act = "remove" then
    if env.pkgCmdOk "remove" 0 pkg || env.pkgCmdOk "remove" 1 pkg || env.pkgCmdOk "remove" 2 pkg then
      (true, [⟨"package_removed", node, "info"⟩], [])
    else
      (false, [⟨"package_removal_failed", node, "warning"⟩], [])
  else
    if env.pkgCmdOk "install" 0 pkg || env.pkgCmdOk "install" 1 pkg || env.pkgCmdOk "install" 2 pkg then
      (true, [⟨"package_installed", node, "info"⟩], [])
    else
      (false, [⟨"package_install_failed", node, "warning"⟩], [])

/-- Embeds `RemediationEngine.remediate_unauthorized_user` (lines 342-370):
for `action="remove"`, success without acting when the user does not
exist or is in the admin allow-list; otherwise `userdel` (whose
`check=True` failure is caught and yields failure).  For
`action="add"`, `useradd`. -/
def remediate_unauthorized_user (cfg : Config) (env : Env) (node username act : String) :
    Bool × List LogEvent × List EngineAction :=
  if act = "remove" then
    if env.userExists username = false then
      (true, [⟨"user_not_found", node, "info"⟩], [])
    else if username ∈ cfg.preserveAdminUsers then
      (true, [⟨"user_preserved", node, "info"⟩], [])
    else if env.userdelOk username then
      (true, [⟨"user_removed", node, "info"⟩], [EngineAction.userdel username])
    else
      (false, [⟨"user_remediation_error", node, "error"⟩], [EngineAction.userdel username])
  else
    if env.useraddOk username then
      (true, [⟨"user_added", node, "info"⟩], [EngineAction.useradd username])
    else
      (false, [⟨"user_remediation_error", node, "error"⟩], [EngineAction.useradd username])

/-- Embeds `RemediationEngine.validate_node` (lines 144-213): the gating
result is the conjunction of the required-service checks; an exception
returns `None` after logging `validation_failed`. -/
def validate_node (env : Env) (node vtype : String) : Option Bool × List LogEvent :=
  match env.validate node vtype with
  | none => (none, [⟨"validation_failed", node, "error"⟩])
  | some b => (some b, [⟨"validation_" ++ vtype, node, "info"⟩])

/-- Drift-kind dispatch of the `for drift in drifts:` loop of
`remediate_node` (lines 393-422).  `none` is the `else:` arm that logs
`unknown_drift_type` and `continue`s without recording a result. -/
def handle_drift (cfg : Config) (env : Env) (node : String) (d : Drift) :
    Option Bool × List LogEvent × List EngineAction :=
  if d.dtype = "file_change" then
    let r := remediate_file_changes env node d.file
    (some r.1, r.2.1, EngineAction.runHandler d.dtype d.file :: r.2.2)
  else if d.dtype = "service_status_change" then
    let r := remediate_service_status env node d.service "active"
    (some r.1, r.2.1, EngineAction.runHandler d.dtype d.service :: r.2.2)
  else if d.dtype = "package_added" ∨ d.dtype = "package_removed" then
    let act := if d.dtype = "package_added" then "remove" else "install"
    let r := remediate_unauthorized_package env node d.package act
    (some r.1, r.2.1, EngineAction.runHandler d.dtype d.package :: r.2.2)
  else if d.dtype = "user_added" ∨ d.dtype = "user_removed" then
    let act := if d.dtype = "user_added" then "remove" else "add"
    let r := remediate_unauthorized_user cfg env node d.user act
    (some r.1, r.2.1, EngineAction.runHandler d.dtype d.user :: r.2.2)
  else
    (none, [⟨"unknown_drift_type", node, "warning"⟩], [])

/-- Accumulated `remediation_results`, log entries and actions of the
drift loop. -/
structure DriftAcc where
  results : List (Drift × Bool)
  events : List LogEvent
  actions : List EngineAction
  deriving Repr, DecidableEq

/-- The `for drift in drifts:` loop of `remediate_node`, in order. -/
def process_drifts (cfg : Config) (env : Env) (node : String) : List Drift → DriftAcc
  | [] => ⟨[], [], []⟩
  | d :: ds =>
    let h := handle_drift cfg env node d
    let rest := process_drifts cfg env node ds
    ⟨(match h.1 with | some s => [(d, s)] | none => []) ++ rest.results,
     h.2.1 ++ rest.events, h.2.2 ++ rest.actions⟩

/-- The file-restore loop of `rollback_node` (lines 464-474): each
`shutil.copy2` either succeeds or raises; a raise propagates to the
surrounding `except`, so the loop stops at the first failing file. -/
def restore_files (env : Env) (node : String) : List String → Bool × List EngineAction
  | [] => (true, [])
  | f :: fs =>
    if env.copyOk node f then
      let r := restore_files env node fs
      (r.1, EngineAction.restoreFile f :: r.2)
    else
      (false, [EngineAction.restoreFile f])

/-- Embeds `RemediationEngine.rollback_node` (lines 452-481). -/
def rollback_node (env : Env) (node : String) : Bool × List LogEvent × List EngineAction :=
  match env.backupFiles node with
  | none => (false, [⟨"rollback_failed", node, "error"⟩], [])
  | some files =>
    let r := restore_files env node files
    if r.1 then (true, [⟨"rollback_complete", node, "info"⟩], r.2)
    else (false, [⟨"rollback_error", node, "error"⟩], r.2)

/-- Result of `remediate_node` for one node: the returned boolean, the
recorded `remediation_results`, the appends this call performed on
`self.remediated_nodes` and `self.failed_nodes` (the source contains
no statement appending to `self.failed_nodes`, so each branch has
`failedDelta` is `[]`), the log entries, and the external actions. -/
structure NodeOutcome where
  success : Bool
  results : List (Drift × Bool)
  remediatedDelta : List String
  failedDelta : List String
  events : List LogEvent
  actions : List EngineAction
  deriving Repr, DecidableEq

/-- Embeds `RemediationEngine.remediate_node` (lines 372-450):
backup (fatal on failure) → optional pre-validation (fatal on failure)
→ drift loop → optional post-validation (on failure: optional rollback,
then a failed return) → tally: all recorded results successful ⇒
`remediation_complete`, node appended to `remediated_nodes`, `True`;
otherwise `remediation_partial`, node still appended, and the return
value is `success_count > 0`. -/
def remediate_node (cfg : Config) (env : Env) (node : String) (drifts : List Drift) :
    NodeOutcome :=
  if cfg.backupBefore = true ∧ env.backupOk node = false then
    ⟨false, [], [], [],
     [⟨"backup_failed", node, "error"⟩, ⟨"remediation_aborted", node, "error"⟩], []⟩
  else
    let evB : List LogEvent :=
      if cfg.backupBefore then [⟨"backup_created", node, "info"⟩] else []
    let pre := validate_node env node "pre_remediation"
    if cfg.preValidation = true ∧ pre.1 ≠ some true then
      ⟨false, [], [], [], evB ++ pre.2 ++ [⟨"remediation_aborted", node, "error"⟩], []⟩
    else
      let evPre : List LogEvent := if cfg.preValidation then pre.2 else []
      let pd := process_drifts cfg env node drifts
      let post := validate_node env node "post_remediation"
      if cfg.postValidation = true ∧ post.1 ≠ some true then
        let rb := rollback_node env node
        let rbEvents := if cfg.autoRollback then rb.2.1 else []
        let rbActions := if cfg.autoRollback then rb.2.2 else []
        ⟨false, pd.results, [], [],
         evB ++ evPre ++ pd.events ++ post.2 ++
           [⟨"remediation_failed_validation", node, "error"⟩] ++ rbEvents,
         pd.actions ++ rbActions⟩
      else
        let evPost : List LogEvent := if cfg.postValidation then post.2 else []
        let succ := pd.results.countP fun r => r.2
        let total := pd.results.length
        if succ = total then
          ⟨true, pd.results, [node], [],
           evB ++ evPre ++ pd.events ++ evPost ++ [⟨"remediation_complete", node, "info"⟩],
           pd.actions⟩
        else
          ⟨decide (0 < succ), pd.results, [node], [],
           evB ++ evPre ++ pd.events ++ evPost ++ [⟨"remediation_partial", node, "warning"⟩],
           pd.actions⟩

/-- Embeds `RemediationEngine.select_canary_nodes` (lines 95-107): all nodes
when canary is disabled, otherwise the first
`max(1, int(len(all_nodes) * canary_percentage / 100))` nodes.  For
integer percentages the Python `int(...)` of the float quotient is the
floor, i.e. `Nat` division. -/
def select_canary_nodes (cfg : Config) (all_nodes : List String) : List String :=
  if cfg.canaryEnabled = false then all_nodes
  else all_nodes.take (max 1 (all_nodes.length * cfg.canaryPercentage / 100))

/-- Modelled from the spec: canary selection as §4.5 words it,
`ceil(canaryPercentage × nodeCount)` with minimum 1, first N in
grouping order (`(a + 99) / 100` is ceiling division by 100 on `Nat`).
Stated only to compare against `select_canary_nodes`. -/
def select_canary_nodes_spec (cfg : Config) (all_nodes : List String) : List String :=
  if cfg.canaryEnabled = false then all_nodes
  else all_nodes.take (max 1 ((all_nodes.length * cfg.canaryPercentage + 99) / 100))

/-- Embeds `nodes_with_drifts.get(node, [])` over the grouped report. -/
def lookupD (nwd : List (String × List Drift)) (n : String) : List Drift :=
  match nwd.find? (fun p => p.1 == n) with
  | some p => p.2
  | none => []

/-- Accumulated state of the canary loop (lines 494-504):
`canary_results`, and the deltas to `self.remediated_nodes`,
`self.failed_nodes` and the log. -/
structure CanaryAcc where
  results : List (String × Bool)
  remediated : List String
  failed : List String
  events : List LogEvent
  deriving Repr, DecidableEq

/-- The `for node in self.canary_nodes:` loop of
`run_canary_remediation`: nodes with an empty drift list log
`no_drifts` and are skipped; the others are remediated and their
`(node, success)` pair recorded. -/
def canary_loop (cfg : Config) (env : Env) (nwd : List (String × List Drift)) :
    List String → CanaryAcc
  | [] => ⟨[], [], [], []⟩
  | n :: ns =>
    let rest := canary_loop cfg env nwd ns
    let ds := lookupD nwd n
    if ds = [] then
      ⟨rest.results, rest.remediated, rest.failed, ⟨"no_drifts", n, "info"⟩ :: rest.events⟩
    else
      let o := remediate_node cfg env n ds
      ⟨(n, o.success) :: rest.results, o.remediatedDelta ++ rest.remediated,
       o.failedDelta ++ rest.failed, o.events ++ rest.events⟩

/-- Embeds `success_rate = (successful_canaries / total_canaries * 100) if
total_canaries > 0 else 0` (line 509), over `ℚ`. -/
def successRate (succ total : Nat) : ℚ :=
  if 0 < total then (succ : ℚ) / (total : ℚ) * 100 else 0

/-- Result of `run_canary_remediation` (lines 483-520). -/
structure CanaryOutcome where
  gate : Bool
  canary_nodes : List String
  results : List (String × Bool)
  succ : Nat
  total : Nat
  remediated : List String
  failed : List String
  events : List LogEvent
  deriving Repr, DecidableEq

/-- Embeds `RemediationEngine.run_canary_remediation`: empty input returns
`True` immediately; otherwise select canaries, remediate each canary
node that has drifts, and gate on
`success_rate >= success_threshold`. -/
def run_canary_remediation (cfg : Config) (env : Env)
    (nwd : List (String × List Drift)) : CanaryOutcome :=
  if nwd = [] then ⟨true, [], [], 0, 0, [], [], []⟩
  else
    let canary := select_canary_nodes cfg (nwd.map Prod.fst)
    let acc := canary_loop cfg env nwd canary
    let succ := acc.results.countP fun r => r.2
    let total := acc.results.length
    let gate := decide (successRate succ total ≥ (cfg.successThreshold : ℚ))
    ⟨gate, canary, acc.results, succ, total, acc.remediated, acc.failed,
     acc.events ++
       [if gate then ⟨"canary_success", "all", "info"⟩ else ⟨"canary_failed", "all", "error"⟩]⟩

/-- Accumulated state of the full-rollout loop. -/
structure FullAcc where
  processed : List String
  remediated : List String
  failed : List String
  events : List LogEvent
  deriving Repr, DecidableEq

/-- The `for node, drifts in remaining_nodes.items():` loop of
`run_full_remediation` (lines 534-535); per-node return values are
ignored. -/
def full_loop (cfg : Config) (env : Env) : List (String × List Drift) → FullAcc
  | [] => ⟨[], [], [], []⟩
  | p :: rest =>
    let o := remediate_node cfg env p.1 p.2
    let r := full_loop cfg env rest
    ⟨p.1 :: r.processed, o.remediatedDelta ++ r.remediated,
     o.failedDelta ++ r.failed, o.events ++ r.events⟩

/-- Embeds `RemediationEngine.run_full_remediation` (lines 522-538): all
grouped nodes that were not canaries. -/
def run_full_remediation (cfg : Config) (env : Env) (nwd : List (String × List Drift))
    (canary : List String) : FullAcc :=
  full_loop cfg env (nwd.filter fun p => canary.contains p.1 = false)

/-- A recommendation entry of the final report. -/
structure Recommendation where
  priority : String
  action : String
  details : String
  deriving Repr, DecidableEq

/-- The fields of the report produced by
`generate_remediation_report` that carry run state (lines 540-577);
metadata timestamps and the events histogram are reflected through
`countEvents`. -/
structure Report where
  total_nodes_remediated : Nat
  total_nodes_failed : Nat
  canary_nodes : List String
  remediated_nodes : List String
  failed_nodes : List String
  recommendations : List Recommendation
  deriving Repr, DecidableEq

/-- Computes `events_by_type[t]` of the report (with 0 for an absent key). -/
def countEvents (evs : List LogEvent) (t : String) : Nat :=
  evs.countP fun e => e.etype = t

/-- Embeds `RemediationEngine.generate_remediation_report`: summary counts
from the instance lists, a high-priority `manual_intervention`
recommendation when `self.failed_nodes` is non-empty, and a medium
one when any `remediation_failed_validation` event was logged. -/
def generate_remediation_report (canary remediated failed : List String)
    (evs : List LogEvent) : Report :=
  { total_nodes_remediated := remediated.length,
    total_nodes_failed := failed.length,
    canary_nodes := canary, remediated_nodes := remediated, failed_nodes := failed,
    recommendations :=
      (if failed = [] then []
       else [⟨"high", "manual_intervention",
              "Manual intervention required for nodes: " ++ String.intercalate ", " failed⟩]) ++
      (if 0 < countEvents evs "remediation_failed_validation" then
        [⟨"medium", "review_validation_thresholds",
          "Consider adjusting validation thresholds or improving remediation scripts"⟩]
       else []) }

/-- Result of one `RemediationEngine.run` invocation:
the boolean `run` returns, the final instance lists, the nodes the
full phase processed, the log, and the final report (`none` on the
paths that return before `generate_remediation_report` is called). -/
structure RunResult where
  retval : Bool
  canary_nodes : List String
  remediated_nodes : List String
  failed_nodes : List String
  fullProcessed : List String
  events : List LogEvent
  report : Option Report
  deriving Repr, DecidableEq

/-- Lines 641-671 of `RemediationEngine.run`, after the drifts have
been grouped by node: nothing to do on an empty grouping; a failed
canary gate generates a report and returns `False` with the full phase
skipped; otherwise the full phase runs (the soak `time.sleep` has no
modelled effect), the report is generated, and the return value is
`len(self.failed_nodes) == 0`. -/
def runGroups (cfg : Config) (env : Env) (nwd : List (String × List Drift)) : RunResult :=
  if nwd = [] then ⟨true, [], [], [], [], [], none⟩
  else
    let co := run_canary_remediation cfg env nwd
    if co.gate then
      let fullAcc := run_full_remediation cfg env nwd co.canary_nodes
      let remediated := co.remediated ++ fullAcc.remediated
      let failed := co.failed ++ fullAcc.failed
      let events := co.events ++ fullAcc.events
      ⟨decide (failed.length = 0), co.canary_nodes, remediated, failed, fullAcc.processed,
       events, some (generate_remediation_report co.canary_nodes remediated failed events)⟩
    else
      ⟨false, co.canary_nodes, co.remediated, co.failed, [], co.events,
       some (generate_remediation_report co.canary_nodes co.remediated co.failed co.events)⟩

/-- Grouping step of `run` (lines 633-639): insert one detection into
the per-node dict, preserving first-seen node order. -/
def insertDrift (acc : List (String × List Drift)) (d : Drift) : List (String × List Drift) :=
  match acc with
  | [] => [(d.node, [d])]
  | p :: rest =>
    if p.1 = d.node then (p.1, p.2 ++ [d]) :: rest else p :: insertDrift rest d

/-- Builds `nodes_with_drifts` from the `detections` array of the report. -/
def groupByNode (ds : List Drift) : List (String × List Drift) :=
  ds.foldl insertDrift []

/-- Embeds `RemediationEngine.run` (lines 618-671): `False` without a report
when remediation is disabled or no detection report is available,
otherwise group and delegate.  The detection report is `none` when
`load_latest_detection` found or parsed nothing. -/
def engineRun (cfg : Config) (env : Env) (detection : Option (List Drift)) : RunResult :=
  if cfg.enabled = false then ⟨false, [], [], [], [], [], none⟩
  else
    match detection with
    | none => ⟨false, [], [], [], [], [], none⟩
    | some detections => runGroups cfg env (groupByNode detections)

/-- Embeds `main` (lines 673-721): `sys.exit(0)` iff `engine.run()` returned
a truthy value, else `sys.exit(1)`. -/
def mainExitCode (cfg : Config) (env : Env) (detection : Option (List Drift)) : Nat :=
  if (engineRun cfg env detection).retval then 0 else 1

/-- The canary set actually selected for a grouped report. -/
def canaryOf (cfg : Config) (nwd : List (String × List Drift)) : List String :=
  select_canary_nodes cfg (nwd.map Prod.fst)

/-- Number of selected canary nodes whose `remediate_node` call
returns success. -/
def canarySuccCount (cfg : Config) (env : Env) (nwd : List (String × List Drift)) : Nat :=
  (canaryOf cfg nwd).countP fun n => (remediate_node cfg env n (lookupD nwd n)).success

/-- The drift-type strings `remediate_node` dispatches on; anything
else hits the `unknown_drift_type` arm. -/
def recognizedDriftType (t : String) : Bool :=
  t == "file_change" || t == "service_status_change" || t == "package_added" ||
  t == "package_removed" || t == "user_added" || t == "user_removed"

/-- The backup files `rollback_node` actually attempts to copy back:
all of them while `shutil.copy2` keeps succeeding, and nothing past
the first failing file. -/
def attemptedFiles (env : Env) (node : String) : List String → List String
  | [] => []
  | f :: fs => if env.copyOk node f then f :: attemptedFiles env node fs else [f]

/-- An environment in which every external call succeeds. -/
def envAllOk : Env :=
  { backupOk := fun _ => true,
    validate := fun _ _ => some true,
    backupFileExists := fun _ _ => true,
    cpOk := fun _ _ => true,
    ansibleOk := fun _ => true,
    serviceStatus := fun _ _ => "active",
    serviceCtlOk := fun _ _ => true,
    serviceStatusAfter := fun _ _ => "active",
    pkgCmdOk := fun _ _ _ => true,
    userExists := fun _ => true,
    userdelOk := fun _ => true,
    useraddOk := fun _ => true,
    backupFiles := fun _ => some [],
    copyOk := fun _ _ => true }

/-- A `file_change` detection entry. -/
def fileDrift (n p : String) : Drift := ⟨"file_change", n, p, "", "", ""⟩

/-- A `package_added` detection entry. -/
def pkgDrift (n p : String) : Drift := ⟨"package_added", n, "", "", p, ""⟩

/-- A detection entry whose type no handler recognizes. -/
def unknownDrift : Drift := ⟨"mystery_event", "n1", "", "", "", ""⟩

/-- Canary at 50% with threshold 80, no backup or validation gating. -/
def cfgC1 : Config := ⟨true, true, 50, 80, false, false, false, false, []⟩

/-- Two one-drift nodes. -/
def nwdC1 : List (String × List Drift) :=
  [("web1", [fileDrift "web1" "/var/www/site/index.html"]),
   ("web2", [fileDrift "web2" "/var/www/site/index.html"])]

/-- Canary at 50% with threshold 100 and backup-before-remediation. -/
def cfgC2 : Config := ⟨true, true, 50, 100, false, false, true, false, []⟩

/-- Backup creation succeeds everywhere except on node `n2`. -/
def envC2 : Env := { envAllOk with backupOk := fun n => n != "n2" }

/-- A detection report with one managed-file drift on each of `n1`,
`n2`. -/
def detsC2 : List Drift :=
  [fileDrift "n1" "/var/www/site/index.html", fileDrift "n2" "/var/www/site/index.html"]

/-- Canary enabled at 50%. -/
def cfgC3 : Config := ⟨true, true, 50, 80, false, false, false, false, []⟩

/-- Three nodes: 50% of 3 is 1.5, where floor and ceiling differ. -/
def nodesC3 : List String := ["a", "b", "c"]

/-- Configuration with a two-entry admin allow-list. -/
def cfgC4 : Config := ⟨true, true, 50, 80, false, false, false, false, ["admin", "deploy"]⟩

/-- No backup and no validation gating. -/
def cfgC5 : Config := ⟨true, false, 50, 80, false, false, false, false, []⟩

/-- Every package-manager front-end fails. -/
def envC5 : Env := { envAllOk with pkgCmdOk := fun _ _ _ => false }

/-- Backup-before-remediation is on. -/
def cfgC6 : Config := ⟨true, true, 50, 80, false, false, true, false, []⟩

/-- Backup creation always fails. -/
def envNoBackup : Env := { envAllOk with backupOk := fun _ => false }

/-- A two-file backup for `n1` whose first file fails to copy back. -/
def envC7 : Env :=
  { envAllOk with
    backupFiles := fun n =>
      if n = "n1" then some ["/etc/nginx/a.conf", "/etc/nginx/b.conf"] else none,
    copyOk := fun _ f => f != "/etc/nginx/a.conf" }

/-- Remediation disabled in configuration. -/
def cfgC8dis : Config := ⟨false, true, 50, 80, false, false, false, false, []⟩

/-- Canary at 50%, threshold 100, backup-before-remediation on. -/
def cfgC8 : Config := ⟨true, true, 50, 100, false, false, true, false, []⟩

/-- Two one-drift nodes for the gate-failure scenario. -/
def nwdC8 : List (String × List Drift) :=
  [("n1", [fileDrift "n1" "/var/www/a"]), ("n2", [fileDrift "n2" "/var/www/b"])]

/-- Every stage gate of `remediate_node` enabled. -/
def cfgC10 : Config := ⟨true, true, 50, 80, true, true, true, true, []⟩

theorem successRate_ge_iff (s t thr : Nat) :
    successRate s t ≥ (thr : ℚ) ↔ (if 0 < t then thr * t ≤ s * 100 else thr = 0) := by
  unfold successRate
  by_cases ht : 0 < t
  · rw [if_pos ht, if_pos ht, ge_iff_le, div_mul_eq_mul_div,
      le_div_iff₀ (by exact_mod_cast ht)]
    constructor
    · intro h
      exact_mod_cast h
    · intro h
      exact_mod_cast h
  · rw [if_neg ht, if_neg ht, ge_iff_le]
    constructor
    · intro h
      have : thr ≤ 0 := by exact_mod_cast h
      omega
    · intro h
      simp [h]

theorem gate_eval (s t thr : Nat) :
    decide (successRate s t ≥ (thr : ℚ)) =
      (if 0 < t then decide (thr * t ≤ s * 100) else decide (thr = 0)) := by
  by_cases ht : 0 < t
  · rw [if_pos ht]
    exact decide_eq_decide.mpr (by rw [successRate_ge_iff, if_pos ht])
  · rw [if_neg ht]
    exact decide_eq_decide.mpr (by rw [successRate_ge_iff, if_neg ht])

theorem validate_node_fst (env : Env) (node vtype : String) :
    (validate_node env node vtype).1 = env.validate node vtype := by
  unfold validate_node
  cases env.validate node vtype <;> rfl

/-- No branch of `remediate_node` appends to `self.failed_nodes`. -/
theorem remediate_node_failedDelta (cfg : Config) (env : Env) (node : String)
    (drifts : List Drift) : (remediate_node cfg env node drifts).failedDelta = [] := by
  simp only [remediate_node]
  split_ifs <;> rfl

theorem canary_loop_failed (cfg : Config) (env : Env) (nwd : List (String × List Drift))
    (ns : List String) : (canary_loop cfg env nwd ns).failed = [] := by
  induction ns with
  | nil => rfl
  | cons n ns ih =>
    simp only [canary_loop]
    split
    · exact ih
    · simp [remediate_node_failedDelta, ih]

theorem full_loop_failed (cfg : Config) (env : Env) (l : List (String × List Drift)) :
    (full_loop cfg env l).failed = [] := by
  induction l with
  | nil => rfl
  | cons p rest ih => simp [full_loop, remediate_node_failedDelta, ih]

theorem full_loop_processed (cfg : Config) (env : Env) (l : List (String × List Drift)) :
    (full_loop cfg env l).processed = l.map Prod.fst := by
  induction l with
  | nil => rfl
  | cons p rest ih => simp [full_loop, ih]

theorem run_canary_failed (cfg : Config) (env : Env) (nwd : List (String × List Drift)) :
    (run_canary_remediation cfg env nwd).failed = [] := by
  unfold run_canary_remediation
  split
  · rfl
  · exact canary_loop_failed ..

theorem runGroups_failed (cfg : Config) (env : Env) (nwd : List (String × List Drift)) :
    (runGroups cfg env nwd).failed_nodes = [] := by
  simp only [runGroups]
  split
  · rfl
  · split <;>
      simp [run_canary_failed, run_full_remediation, full_loop_failed]

theorem engineRun_failed (cfg : Config) (env : Env) (det : Option (List Drift)) :
    (engineRun cfg env det).failed_nodes = [] := by
  unfold engineRun
  split
  · rfl
  · cases det with
    | none => rfl
    | some detections => exact runGroups_failed ..

theorem lookupD_mem (nwd : List (String × List Drift)) (n : String)
    (h : n ∈ nwd.map Prod.fst) : (n, lookupD nwd n) ∈ nwd := by
  induction nwd with
  | nil => simp at h
  | cons p rest ih =>
    obtain ⟨a, b⟩ := p
    by_cases hp : a = n
    · subst hp
      simp [lookupD, List.find?]
    · have hn : n ∈ rest.map Prod.fst := by
        simp only [List.map_cons, List.mem_cons] at h
        exact h.resolve_left (fun hh => hp hh.symm)
      have hb : (a == n) = false := beq_eq_false_iff_ne.mpr hp
      have heq : lookupD ((a, b) :: rest) n = lookupD rest n := by
        simp [lookupD, List.find?, hb]
      rw [heq]
      exact List.mem_cons_of_mem _ (ih hn)

theorem lookupD_ne_nil (nwd : List (String × List Drift)) (n : String)
    (h : n ∈ nwd.map Prod.fst) (hv : ∀ p ∈ nwd, p.2 ≠ []) : lookupD nwd n ≠ [] :=
  hv (n, lookupD nwd n) (lookupD_mem nwd n h)

theorem canaryOf_subset (cfg : Config) (nwd : List (String × List Drift)) :
    ∀ n ∈ canaryOf cfg nwd, n ∈ nwd.map Prod.fst := by
  intro n hn
  unfold canaryOf select_canary_nodes at hn
  split at hn
  · exact hn
  · exact List.take_subset _ _ hn

theorem canary_loop_results (cfg : Config) (env : Env) (nwd : List (String × List Drift))
    (ns : List String) (h : ∀ n ∈ ns, lookupD nwd n ≠ []) :
    (canary_loop cfg env nwd ns).results =
      ns.map fun n => (n, (remediate_node cfg env n (lookupD nwd n)).success) := by
  induction ns with
  | nil => rfl
  | cons n ns ih =>
    have h1 : lookupD nwd n ≠ [] := h n (List.mem_cons_self n ns)
    simp only [canary_loop, if_neg h1, List.map_cons]
    rw [ih fun m hm => h m (List.mem_cons_of_mem n hm)]

theorem handle_drift_unknown (cfg : Config) (env : Env) (node : String) (d : Drift)
    (hu : recognizedDriftType d.dtype = false) :
    handle_drift cfg env node d = (none, [⟨"unknown_drift_type", node, "warning"⟩], []) := by
  unfold recognizedDriftType at hu
  simp only [Bool.or_eq_false_iff, beq_eq_false_iff_ne, ne_eq] at hu
  obtain ⟨⟨⟨⟨⟨h1, h2⟩, h3⟩, h4⟩, h5⟩, h6⟩ := hu
  simp [handle_drift, h1, h2, h3, h4, h5, h6]

theorem process_drifts_unknown (cfg : Config) (env : Env) (node : String)
    (drifts : List Drift) (hu : ∀ d ∈ drifts, recognizedDriftType d.dtype = false) :
    process_drifts cfg env node drifts =
      ⟨[], drifts.map fun _ => ⟨"unknown_drift_type", node, "warning"⟩, []⟩ := by
  induction drifts with
  | nil => rfl
  | cons d ds ih =>
    simp only [process_drifts, handle_drift_unknown cfg env node d
      (hu d (List.mem_cons_self d ds)), ih fun m hm => hu m (List.mem_cons_of_mem d hm)]
    rfl

/-- Reduced form of `remediate_node` when the backup and validation
stage gates all pass: the outcome is settled by the final
success-count tally (lines 440-450). -/
theorem remediate_node_tally (cfg : Config) (env : Env) (node : String) (drifts : List Drift)
    (hb : cfg.backupBefore = true → env.backupOk node = true)
    (hpre : cfg.preValidation = true → env.validate node "pre_remediation" = some true)
    (hpost : cfg.postValidation = true → env.validate node "post_remediation" = some true) :
    (remediate_node cfg env node drifts).results = (process_drifts cfg env node drifts).results ∧
    (remediate_node cfg env node drifts).remediatedDelta = [node] ∧
    (remediate_node cfg env node drifts).success =
      (((process_drifts cfg env node drifts).results.countP fun r => r.2) ==
          (process_drifts cfg env node drifts).results.length ||
        decide (0 < (process_drifts cfg env node drifts).results.countP fun r => r.2)) ∧
    (((process_drifts cfg env node drifts).results.countP fun r => r.2) =
        (process_drifts cfg env node drifts).results.length →
      (⟨"remediation_complete", node, "info"⟩ : LogEvent) ∈
        (remediate_node cfg env node drifts).events) ∧
    (((process_drifts cfg env node drifts).results.countP fun r => r.2) ≠
        (process_drifts cfg env node drifts).results.length →
      (⟨"remediation_partial", node, "warning"⟩ : LogEvent) ∈
        (remediate_node cfg env node drifts).events) := by
  have h1 : ¬ (cfg.backupBefore = true ∧ env.backupOk node = false) := by
    rintro ⟨ha, hc⟩
    rw [hb ha] at hc
    cases hc
  have h2 : ¬ (cfg.preValidation = true ∧
      (validate_node env node "pre_remediation").1 ≠ some true) := by
    rintro ⟨ha, hc⟩
    exact hc (by rw [validate_node_fst, hpre ha])
  have h3 : ¬ (cfg.postValidation = true ∧
      (validate_node env node "post_remediation").1 ≠ some true) := by
    rintro ⟨ha, hc⟩
    exact hc (by rw [validate_node_fst, hpost ha])
  simp only [remediate_node, if_neg h1, if_neg h2, if_neg h3]
  by_cases hq : ((process_drifts cfg env node drifts).results.countP fun r => r.2) =
      (process_drifts cfg env node drifts).results.length
  · simp [hq]
  · simp [hq]

/-- Claim C1: over a non-empty grouping in which every node has a
non-empty drift list, the canary success rate is the number of canary
nodes whose remediation returned success over the number of canary
nodes attempted (= all selected canaries), and the full phase runs on
exactly the remaining nodes iff that rate (as a percentage) is at
least `success_threshold`; below the threshold the run aborts with no
remaining node processed. -/
theorem canary_gate_controls_full_phase (cfg : Config) (env : Env)
    (nwd : List (String × List Drift)) (hne : nwd ≠ [])
    (hv : ∀ p ∈ nwd, p.2 ≠ []) :
    (run_canary_remediation cfg env nwd).total = (canaryOf cfg nwd).length ∧
    (run_canary_remediation cfg env nwd).succ = canarySuccCount cfg env nwd ∧
    ((run_canary_remediation cfg env nwd).gate = true ↔
      successRate (canarySuccCount cfg env nwd) (canaryOf cfg nwd).length ≥
        (cfg.successThreshold : ℚ)) ∧
    (successRate (canarySuccCount cfg env nwd) (canaryOf cfg nwd).length ≥
        (cfg.successThreshold : ℚ) →
      (runGroups cfg env nwd).fullProcessed =
        ((nwd.filter fun p => (canaryOf cfg nwd).contains p.1 = false).map Prod.fst)) ∧
    (¬ (successRate (canarySuccCount cfg env nwd) (canaryOf cfg nwd).length ≥
        (cfg.successThreshold : ℚ)) →
      (runGroups cfg env nwd).fullProcessed = [] ∧
      (runGroups cfg env nwd).retval = false) := by
  have hlk : ∀ n ∈ select_canary_nodes cfg (nwd.map Prod.fst), lookupD nwd n ≠ [] :=
    fun n hn => lookupD_ne_nil nwd n (canaryOf_subset cfg nwd n hn) hv
  have hres := canary_loop_results cfg env nwd (select_canary_nodes cfg (nwd.map Prod.fst)) hlk
  have hsucc : ((canary_loop cfg env nwd
        (select_canary_nodes cfg (nwd.map Prod.fst))).results.countP fun r => r.2) =
      canarySuccCount cfg env nwd := by
    rw [hres, List.countP_map]
    rfl
  have htot : (canary_loop cfg env nwd
        (select_canary_nodes cfg (nwd.map Prod.fst))).results.length =
      (select_canary_nodes cfg (nwd.map Prod.fst)).length := by
    rw [hres, List.length_map]
  have hT : (run_canary_remediation cfg env nwd).total = (canaryOf cfg nwd).length := by
    simp only [run_canary_remediation, if_neg hne]
    exact htot
  have hS : (run_canary_remediation cfg env nwd).succ = canarySuccCount cfg env nwd := by
    simp only [run_canary_remediation, if_neg hne]
    exact hsucc
  have hCN : (run_canary_remediation cfg env nwd).canary_nodes = canaryOf cfg nwd := by
    simp only [run_canary_remediation, if_neg hne]
    rfl
  have hG : (run_canary_remediation cfg env nwd).gate =
      decide (successRate (canarySuccCount cfg env nwd) (canaryOf cfg nwd).length ≥
        (cfg.successThreshold : ℚ)) := by
    simp only [run_canary_remediation, if_neg hne]
    rw [hsucc, htot]
    rfl
  refine ⟨hT, hS, ?_, ?_, ?_⟩
  · rw [hG]
    exact decide_eq_true_iff
  · intro h
    have hg : (run_canary_remediation cfg env nwd).gate = true := by
      rw [hG, decide_eq_true_eq]
      exact h
    simp only [runGroups, if_neg hne, hg, if_true]
    rw [hCN]
    simp only [run_full_remediation, full_loop_processed]
  · intro h
    have hg : (run_canary_remediation cfg env nwd).gate = false := by
      rw [hG]
      exact decide_eq_false h
    simp only [runGroups, if_neg hne, hg]
    exact ⟨rfl, rfl⟩

/-- Witness for C1 at a concrete two-node run (canary = first node,
50% of 2). -/
theorem canary_gate_controls_full_phase_witness :
    (run_canary_remediation cfgC1 envAllOk nwdC1).total = (canaryOf cfgC1 nwdC1).length ∧
    (run_canary_remediation cfgC1 envAllOk nwdC1).succ = canarySuccCount cfgC1 envAllOk nwdC1 ∧
    ((run_canary_remediation cfgC1 envAllOk nwdC1).gate = true ↔
      successRate (canarySuccCount cfgC1 envAllOk nwdC1) (canaryOf cfgC1 nwdC1).length ≥
        (cfgC1.successThreshold : ℚ)) ∧
    (successRate (canarySuccCount cfgC1 envAllOk nwdC1) (canaryOf cfgC1 nwdC1).length ≥
        (cfgC1.successThreshold : ℚ) →
      (runGroups cfgC1 envAllOk nwdC1).fullProcessed =
        ((nwdC1.filter fun p => (canaryOf cfgC1 nwdC1).contains p.1 = false).map Prod.fst)) ∧
    (¬ (successRate (canarySuccCount cfgC1 envAllOk nwdC1) (canaryOf cfgC1 nwdC1).length ≥
        (cfgC1.successThreshold : ℚ)) →
      (runGroups cfgC1 envAllOk nwdC1).fullProcessed = [] ∧
      (runGroups cfgC1 envAllOk nwdC1).retval = false) :=
  canary_gate_controls_full_phase cfgC1 envAllOk nwdC1 (by decide)
    (by decide)

/-- Claim C3 counterexample: with canary enabled at 50% over three
nodes the code selects `max(1, int(1.5)) = 1` node, while the claimed
`ceil(1.5) = 2` would select two. -/
theorem canary_count_ceil_counterexample :
    select_canary_nodes cfgC3 nodesC3 = ["a"] ∧
    select_canary_nodes_spec cfgC3 nodesC3 = ["a", "b"] := by
  decide

/-- Claim C3 (amended): with canary enabled the selected set is the
first `max(1, floor(canaryPercentage × nodeCount / 100))` nodes in
grouping order (a prefix, never empty on non-empty input); with
canary disabled every node is a canary. -/
theorem select_canary_floor_min_one (cfg : Config) (ns : List String) (hne : ns ≠ []) :
    (cfg.canaryEnabled = false → select_canary_nodes cfg ns = ns) ∧
    (cfg.canaryEnabled = true →
      select_canary_nodes cfg ns = ns.take (max 1 (ns.length * cfg.canaryPercentage / 100))) ∧
    select_canary_nodes cfg ns <+: ns ∧
    select_canary_nodes cfg ns ≠ [] := by
  unfold select_canary_nodes
  by_cases hc : cfg.canaryEnabled = false
  · rw [if_pos hc]
    exact ⟨fun _ => rfl, fun h => absurd h (by simp [hc]), List.prefix_refl ns, hne⟩
  · rw [if_neg hc]
    refine ⟨fun h => absurd h hc, fun _ => rfl, List.take_prefix _ _, ?_⟩
    have hl : 0 < ns.length := List.length_pos.mpr hne
    have hlen : (ns.take (max 1 (ns.length * cfg.canaryPercentage / 100))).length =
        min (max 1 (ns.length * cfg.canaryPercentage / 100)) ns.length :=
      List.length_take _ _
    intro hnil
    rw [hnil] at hlen
    simp only [List.length_nil] at hlen
    omega

/-- Witness for the amended C3 at three nodes and 50%. -/
theorem select_canary_floor_min_one_witness :
    (cfgC3.canaryEnabled = false → select_canary_nodes cfgC3 nodesC3 = nodesC3) ∧
    (cfgC3.canaryEnabled = true →
      select_canary_nodes cfgC3 nodesC3 =
        nodesC3.take (max 1 (nodesC3.length * cfgC3.canaryPercentage / 100))) ∧
    select_canary_nodes cfgC3 nodesC3 <+: nodesC3 ∧
    select_canary_nodes cfgC3 nodesC3 ≠ [] :=
  select_canary_floor_min_one cfgC3 nodesC3 (by decide)

/-- Claim C4: a username on the admin allow-list makes the UserAdded
handler (`action="remove"`) return success, and no input to the user
handler ever deletes an allow-listed username. -/
theorem admin_allowlist_users_never_deleted (cfg : Config) (env : Env)
    (node username : String) (h : username ∈ cfg.preserveAdminUsers) :
    (remediate_unauthorized_user cfg env node username "remove").1 = true ∧
    (∀ u, EngineAction.userdel u ∉
      (remediate_unauthorized_user cfg env node username "remove").2.2) ∧
    (∀ u2 act u, EngineAction.userdel u ∈
        (remediate_unauthorized_user cfg env node u2 act).2.2 →
      u ∉ cfg.preserveAdminUsers) := by
  refine ⟨?_, ?_, ?_⟩
  · by_cases he : env.userExists username = false <;>
      simp [remediate_unauthorized_user, he, h]
  · intro u
    by_cases he : env.userExists username = false <;>
      simp [remediate_unauthorized_user, he, h]
  · intro u2 act u hm
    unfold remediate_unauthorized_user at hm
    split_ifs at hm with h1 h2 h3 h4 h5
    · simp at hm
    · simp at hm
    · simp only [List.mem_singleton, EngineAction.userdel.injEq] at hm
      subst hm
      exact h3
    · simp only [List.mem_singleton, EngineAction.userdel.injEq] at hm
      subst hm
      exact h3
    · simp at hm
    · simp at hm

/-- Witness for C4: `admin` is on the allow-list of `cfgC4`. -/
theorem admin_allowlist_users_never_deleted_witness :
    (remediate_unauthorized_user cfgC4 envAllOk "web1" "admin" "remove").1 = true ∧
    (∀ u, EngineAction.userdel u ∉
      (remediate_unauthorized_user cfgC4 envAllOk "web1" "admin" "remove").2.2) ∧
    (∀ u2 act u, EngineAction.userdel u ∈
        (remediate_unauthorized_user cfgC4 envAllOk "web1" u2 act).2.2 →
      u ∉ cfgC4.preserveAdminUsers) :=
  admin_allowlist_users_never_deleted cfgC4 envAllOk "web1" "admin" (by decide)

/-- Claim C5 counterexample: a node whose single drift has an
unrecognized type records zero per-drift results, yet `remediate_node`
returns success — refuting "returns success if and only if at least
one drift handler succeeded". -/
theorem node_success_iff_counterexample :
    (remediate_node cfgC5 envAllOk "n1" [unknownDrift]).success = true ∧
    ((remediate_node cfgC5 envAllOk "n1" [unknownDrift]).results.countP fun r => r.2) = 0 := by
  decide

/-- Claim C5 (amended): when the backup and validation gates pass,
per-node remediation returns success iff at least one recorded drift
handler succeeded **or no per-drift result was recorded at all**; the
node ends `Completed` (`remediation_complete`) when all recorded
handlers succeeded and `PartiallyCompleted` (`remediation_partial`)
otherwise, and in both cases it is appended to the remediated list. -/
theorem node_success_iff_some_handler (cfg : Config) (env : Env) (node : String)
    (drifts : List Drift)
    (hb : cfg.backupBefore = true → env.backupOk node = true)
    (hpre : cfg.preValidation = true → env.validate node "pre_remediation" = some true)
    (hpost : cfg.postValidation = true → env.validate node "post_remediation" = some true) :
    ((remediate_node cfg env node drifts).success = true ↔
      (0 < ((remediate_node cfg env node drifts).results.countP fun r => r.2) ∨
        (remediate_node cfg env node drifts).results = [])) ∧
    (((remediate_node cfg env node drifts).results.countP fun r => r.2) =
        (remediate_node cfg env node drifts).results.length →
      (⟨"remediation_complete", node, "info"⟩ : LogEvent) ∈
          (remediate_node cfg env node drifts).events ∧
        (remediate_node cfg env node drifts).remediatedDelta = [node]) ∧
    (((remediate_node cfg env node drifts).results.countP fun r => r.2) ≠
        (remediate_node cfg env node drifts).results.length →
      (⟨"remediation_partial", node, "warning"⟩ : LogEvent) ∈
          (remediate_node cfg env node drifts).events ∧
        (remediate_node cfg env node drifts).remediatedDelta = [node]) := by
  obtain ⟨hres, hdel, hsucc, hcomp, hpart⟩ :=
    remediate_node_tally cfg env node drifts hb hpre hpost
  rw [hres]
  refine ⟨?_, fun h => ⟨hcomp h, hdel⟩, fun h => ⟨hpart h, hdel⟩⟩
  rw [hsucc]
  have hle := List.countP_le_length (p := fun r => r.2)
    (l := (process_drifts cfg env node drifts).results)
  have hnil : (process_drifts cfg env node drifts).results = [] ↔
      (process_drifts cfg env node drifts).results.length = 0 :=
    List.length_eq_zero.symm
  simp only [Bool.or_eq_true, beq_iff_eq, decide_eq_true_eq]
  constructor
  · rintro (h | h)
    · rcases Nat.eq_zero_or_pos (process_drifts cfg env node drifts).results.length with h0 | h0
      · exact Or.inr (hnil.mpr h0)
      · exact Or.inl (by omega)
    · exact Or.inl h
  · rintro (h | h)
    · exact Or.inr h
    · rw [h]
      exact Or.inl rfl

/-- Witness for the amended C5 at a node with one succeeding file
handler and one failing package handler. -/
theorem node_success_iff_some_handler_witness :
    ((remediate_node cfgC5 envC5 "n1"
        [fileDrift "n1" "/var/www/a", pkgDrift "n1" "netcat"]).success = true ↔
      (0 < ((remediate_node cfgC5 envC5 "n1"
          [fileDrift "n1" "/var/www/a", pkgDrift "n1" "netcat"]).results.countP fun r => r.2) ∨
        (remediate_node cfgC5 envC5 "n1"
          [fileDrift "n1" "/var/www/a", pkgDrift "n1" "netcat"]).results = [])) ∧
    (((remediate_node cfgC5 envC5 "n1"
        [fileDrift "n1" "/var/www/a", pkgDrift "n1" "netcat"]).results.countP fun r => r.2) =
        (remediate_node cfgC5 envC5 "n1"
          [fileDrift "n1" "/var/www/a", pkgDrift "n1" "netcat"]).results.length →
      (⟨"remediation_complete", "n1", "info"⟩ : LogEvent) ∈
          (remediate_node cfgC5 envC5 "n1"
            [fileDrift "n1" "/var/www/a", pkgDrift "n1" "netcat"]).events ∧
        (remediate_node cfgC5 envC5 "n1"
          [fileDrift "n1" "/var/www/a", pkgDrift "n1" "netcat"]).remediatedDelta = ["n1"]) ∧
    (((remediate_node cfgC5 envC5 "n1"
        [fileDrift "n1" "/var/www/a", pkgDrift "n1" "netcat"]).results.countP fun r => r.2) ≠
        (remediate_node cfgC5 envC5 "n1"
          [fileDrift "n1" "/var/www/a", pkgDrift "n1" "netcat"]).results.length →
      (⟨"remediation_partial", "n1", "warning"⟩ : LogEvent) ∈
          (remediate_node cfgC5 envC5 "n1"
            [fileDrift "n1" "/var/www/a", pkgDrift "n1" "netcat"]).events ∧
        (remediate_node cfgC5 envC5 "n1"
          [fileDrift "n1" "/var/www/a", pkgDrift "n1" "netcat"]).remediatedDelta = ["n1"]) :=
  node_success_iff_some_handler cfgC5 envC5 "n1"
    [fileDrift "n1" "/var/www/a", pkgDrift "n1" "netcat"]
    (by decide) (by decide) (by decide)

/-- Claim C6: with backup-before-remediation configured, a backup
failure aborts the node with a failed outcome: no per-drift result is
recorded, no external action (in particular no drift handler) runs,
and the node is not marked remediated. -/
theorem backup_failure_aborts_node (cfg : Config) (env : Env) (node : String)
    (drifts : List Drift) (hb : cfg.backupBefore = true)
    (hf : env.backupOk node = false) :
    (remediate_node cfg env node drifts).success = false ∧
    (remediate_node cfg env node drifts).results = [] ∧
    (remediate_node cfg env node drifts).actions = [] ∧
    (remediate_node cfg env node drifts).remediatedDelta = [] ∧
    (remediate_node cfg env node drifts).events =
      [⟨"backup_failed", node, "error"⟩, ⟨"remediation_aborted", node, "error"⟩] := by
  simp [remediate_node, hb, hf]

/-- Witness for C6 on a node whose backup creation fails. -/
theorem backup_failure_aborts_node_witness :
    (remediate_node cfgC6 envNoBackup "n1" [fileDrift "n1" "/var/www/a"]).success = false ∧
    (remediate_node cfgC6 envNoBackup "n1" [fileDrift "n1" "/var/www/a"]).results = [] ∧
    (remediate_node cfgC6 envNoBackup "n1" [fileDrift "n1" "/var/www/a"]).actions = [] ∧
    (remediate_node cfgC6 envNoBackup "n1" [fileDrift "n1" "/var/www/a"]).remediatedDelta = [] ∧
    (remediate_node cfgC6 envNoBackup "n1" [fileDrift "n1" "/var/www/a"]).events =
      [⟨"backup_failed", "n1", "error"⟩, ⟨"remediation_aborted", "n1", "error"⟩] :=
  backup_failure_aborts_node cfgC6 envNoBackup "n1" [fileDrift "n1" "/var/www/a"]
    (by decide) (by decide)

/-- Claim C10: a node all of whose drifts have unrecognized types
records no per-drift results, and — when the backup and validation
gates pass — is logged as completely remediated
(`remediation_complete`, "All 0 drifts remediated successfully"),
appended to the remediated list, with `remediate_node` returning
success. -/
theorem unknown_drift_types_vacuous_success (cfg : Config) (env : Env) (node : String)
    (drifts : List Drift) (hu : ∀ d ∈ drifts, recognizedDriftType d.dtype = false)
    (hb : cfg.backupBefore = true → env.backupOk node = true)
    (hpre : cfg.preValidation = true → env.validate node "pre_remediation" = some true)
    (hpost : cfg.postValidation = true → env.validate node "post_remediation" = some true) :
    (remediate_node cfg env node drifts).success = true ∧
    (remediate_node cfg env node drifts).results = [] ∧
    (remediate_node cfg env node drifts).remediatedDelta = [node] ∧
    (⟨"remediation_complete", node, "info"⟩ : LogEvent) ∈
      (remediate_node cfg env node drifts).events := by
  obtain ⟨hres, hdel, hsucc, hcomp, hpart⟩ :=
    remediate_node_tally cfg env node drifts hb hpre hpost
  have hpd := process_drifts_unknown cfg env node drifts hu
  have hre : (process_drifts cfg env node drifts).results = [] := by rw [hpd]
  refine ⟨?_, ?_, hdel, hcomp (by rw [hre]; rfl)⟩
  · rw [hsucc, hre]
    rfl
  · rw [hres, hre]

/-- Witness for C10 at a node with one unrecognized drift and every
gate enabled. -/
theorem unknown_drift_types_vacuous_success_witness :
    (remediate_node cfgC10 envAllOk "n1" [unknownDrift]).success = true ∧
    (remediate_node cfgC10 envAllOk "n1" [unknownDrift]).results = [] ∧
    (remediate_node cfgC10 envAllOk "n1" [unknownDrift]).remediatedDelta = ["n1"] ∧
    (⟨"remediation_complete", "n1", "info"⟩ : LogEvent) ∈
      (remediate_node cfgC10 envAllOk "n1" [unknownDrift]).events :=
  unknown_drift_types_vacuous_success cfgC10 envAllOk "n1" [unknownDrift]
    (by decide) (by decide) (by decide) (by decide)

theorem restore_files_spec (env : Env) (node : String) (files : List String) :
    (restore_files env node files).1 = files.all (env.copyOk node) ∧
    (restore_files env node files).2 =
      (attemptedFiles env node files).map EngineAction.restoreFile := by
  induction files with
  | nil => exact ⟨rfl, rfl⟩
  | cons f fs ih =>
    by_cases hf : env.copyOk node f = true
    · simp [restore_files, attemptedFiles, hf, ih.1, ih.2]
    · simp [restore_files, attemptedFiles, hf]

/-- Claim C7 counterexample: with a two-file backup whose first file
fails to copy back, `rollback_node` returns failure without ever
attempting the second captured file — the error is fatal, not
collected. -/
theorem rollback_best_effort_counterexample :
    (rollback_node envC7 "n1").1 = false ∧
    EngineAction.restoreFile "/etc/nginx/b.conf" ∉ (rollback_node envC7 "n1").2.2 ∧
    "/etc/nginx/b.conf" ∈ (envC7.backupFiles "n1").getD [] := by
  decide

/-- Claim C7 (amended): restore walks the captured files in order,
overwriting the live file (creating parent directories) for each, but
the first file error is fatal: the loop stops there, the remaining
captured files are never attempted, and the rollback reports failure
(`rollback_error`); only when every copy succeeds does it report
`rollback_complete`. -/
theorem rollback_stops_at_first_error (env : Env) (node : String) (files : List String)
    (h : env.backupFiles node = some files) :
    ((rollback_node env node).1 = true ↔ ∀ f ∈ files, env.copyOk node f = true) ∧
    (rollback_node env node).2.2 =
      (attemptedFiles env node files).map EngineAction.restoreFile ∧
    ((rollback_node env node).1 = true →
      (rollback_node env node).2.1 = [⟨"rollback_complete", node, "info"⟩]) ∧
    ((rollback_node env node).1 = false →
      (rollback_node env node).2.1 = [⟨"rollback_error", node, "error"⟩]) := by
  obtain ⟨h1, h2⟩ := restore_files_spec env node files
  by_cases hr : (restore_files env node files).1 = true
  · have hall : ∀ f ∈ files, env.copyOk node f = true := by
      rw [hr] at h1
      exact fun f hf => List.all_eq_true.mp h1.symm f hf
    simp [rollback_node, h, hr, h2]
    exact hall
  · have hrf : (restore_files env node files).1 = false := by
      cases hx : (restore_files env node files).1
      · rfl
      · exact absurd hx hr
    have hnall : ¬ ∀ f ∈ files, env.copyOk node f = true := by
      intro hall
      rw [hrf] at h1
      have : files.all (env.copyOk node) = true := List.all_eq_true.mpr hall
      rw [this] at h1
      cases h1
    simp [rollback_node, h, hrf, h2, hnall]

/-- Witness for the amended C7 on the concrete two-file backup. -/
theorem rollback_stops_at_first_error_witness :
    ((rollback_node envC7 "n1").1 = true ↔
      ∀ f ∈ ["/etc/nginx/a.conf", "/etc/nginx/b.conf"], envC7.copyOk "n1" f = true) ∧
    (rollback_node envC7 "n1").2.2 =
      (attemptedFiles envC7 "n1" ["/etc/nginx/a.conf", "/etc/nginx/b.conf"]).map
        EngineAction.restoreFile ∧
    ((rollback_node envC7 "n1").1 = true →
      (rollback_node envC7 "n1").2.1 = [⟨"rollback_complete", "n1", "info"⟩]) ∧
    ((rollback_node envC7 "n1").1 = false →
      (rollback_node envC7 "n1").2.1 = [⟨"rollback_error", "n1", "error"⟩]) :=
  rollback_stops_at_first_error envC7 "n1" ["/etc/nginx/a.conf", "/etc/nginx/b.conf"]
    (by decide)

/-- Claim C8 counterexample: with remediation disabled in configuration
— a run-scoped failure — `run` returns `False` without ever calling
`generate_remediation_report`: no report documents what happened. -/
theorem run_scoped_abort_counterexample :
    (engineRun cfgC8dis envAllOk (some detsC2)).retval = false ∧
    (engineRun cfgC8dis envAllOk (some detsC2)).report = none := by
  decide

/-- Claim C8 (amended): a canary-gate failure aborts the remaining
phases and still produces a final report; the other two run-scoped
failures — remediation disabled, and no detection report available —
abort the run immediately with no report at all. -/
theorem run_scoped_abort_reporting (cfg : Config) (env : Env) (det : Option (List Drift))
    (nwd : List (String × List Drift)) (hne : nwd ≠ [])
    (hg : (run_canary_remediation cfg env nwd).gate = false) :
    engineRun { cfg with enabled := false } env det = ⟨false, [], [], [], [], [], none⟩ ∧
    engineRun { cfg with enabled := true } env none = ⟨false, [], [], [], [], [], none⟩ ∧
    (runGroups cfg env nwd).report ≠ none ∧
    (runGroups cfg env nwd).fullProcessed = [] ∧
    (runGroups cfg env nwd).retval = false := by
  refine ⟨by simp [engineRun], by simp [engineRun], ?_, ?_, ?_⟩ <;>
    simp [runGroups, if_neg hne, hg]

/-- Witness for the amended C8: the backup of the single canary fails, so
the gate fails (0% < 100). -/
theorem run_scoped_abort_reporting_witness :
    engineRun { cfgC8 with enabled := false } envNoBackup (some detsC2) =
      ⟨false, [], [], [], [], [], none⟩ ∧
    engineRun { cfgC8 with enabled := true } envNoBackup none =
      ⟨false, [], [], [], [], [], none⟩ ∧
    (runGroups cfgC8 envNoBackup nwdC8).report ≠ none ∧
    (runGroups cfgC8 envNoBackup nwdC8).fullProcessed = [] ∧
    (runGroups cfgC8 envNoBackup nwdC8).retval = false :=
  run_scoped_abort_reporting cfgC8 envNoBackup (some detsC2) nwdC8 (by decide)
    (by simp only [run_canary_remediation, gate_eval]; decide)

theorem report_no_failed (c rem : List String) (evs : List LogEvent) :
    (generate_remediation_report c rem [] evs).total_nodes_failed = 0 ∧
    ((generate_remediation_report c rem [] evs).recommendations.countP
      fun rec => rec.action = "manual_intervention") = 0 := by
  unfold generate_remediation_report
  refine ⟨rfl, ?_⟩
  have e1 : (if ([] : List String) = [] then ([] : List Recommendation)
      else [⟨"high", "manual_intervention",
        "Manual intervention required for nodes: " ++ String.intercalate ", " []⟩]) =
      [] := by rfl
  rw [e1, List.nil_append]
  by_cases hnn : 0 < countEvents evs "remediation_failed_validation"
  · rw [if_pos hnn]
    show List.countP (fun rec : Recommendation => decide (rec.action = "manual_intervention"))
      ([⟨"medium", "review_validation_thresholds",
        "Consider adjusting validation thresholds or improving remediation scripts"⟩] :
        List Recommendation) = 0
    decide
  · rw [if_neg hnn]
    rfl

theorem runGroups_report_no_failed (cfg : Config) (env : Env)
    (nwd : List (String × List Drift)) :
    ((runGroups cfg env nwd).report.elim 0 Report.total_nodes_failed) = 0 ∧
    ((runGroups cfg env nwd).report.elim 0 fun r =>
      r.recommendations.countP fun rec => rec.action = "manual_intervention") = 0 := by
  simp only [runGroups]
  split
  · exact ⟨rfl, rfl⟩
  · have h1 := run_canary_failed cfg env nwd
    have h2 := full_loop_failed cfg env
      (nwd.filter fun p =>
        (run_canary_remediation cfg env nwd).canary_nodes.contains p.1 = false)
    split
    · simp only [run_full_remediation, Option.elim, h1, h2, List.nil_append]
      exact report_no_failed _ _ _
    · simp only [Option.elim, h1]
      exact report_no_failed _ _ _

/-- Claim C9: nothing in the engine ever appends to
`self.failed_nodes`: every run ends with an empty failed list, the
final report field `summary.total_nodes_failed` is 0, and the
high-priority `manual_intervention` recommendation is never emitted,
even when per-node remediations fail. -/
theorem failed_nodes_never_populated (cfg : Config) (env : Env) (det : Option (List Drift)) :
    (engineRun cfg env det).failed_nodes = [] ∧
    ((engineRun cfg env det).report.elim 0 Report.total_nodes_failed) = 0 ∧
    ((engineRun cfg env det).report.elim 0 fun r =>
      r.recommendations.countP fun rec => rec.action = "manual_intervention") = 0 := by
  refine ⟨engineRun_failed cfg env det, ?_, ?_⟩ <;>
  · unfold engineRun
    split
    · rfl
    · cases det with
      | none => rfl
      | some detections =>
        first
        | exact (runGroups_report_no_failed cfg env (groupByNode detections)).1
        | exact (runGroups_report_no_failed cfg env (groupByNode detections)).2

/-- Claim C2 (code bug): a run in which the canary gate passes but the
full-phase node `n2` fails its remediation (its backup cannot be
created) still exits with code 0, because `self.failed_nodes` is never
populated and `run` returns `len(self.failed_nodes) == 0`; the spec
requires a non-zero exit whenever any node ends in `Failed`. -/
theorem exit_code_zero_despite_failed_node :
    mainExitCode cfgC2 envC2 (some detsC2) = 0 ∧
    (remediate_node cfgC2 envC2 "n2" (lookupD (groupByNode detsC2) "n2")).success = false ∧
    (engineRun cfgC2 envC2 (some detsC2)).fullProcessed = ["n2"] := by
  refine ⟨?_, by decide, ?_⟩
  · simp only [mainExitCode, engineRun, runGroups, run_canary_remediation, gate_eval]
    decide
  · simp only [engineRun, runGroups, run_canary_remediation, gate_eval]
    decide
